import Mathlib

/-!
Verification of the RadarTimelineData reconciliation engine.

The definitions below are a shallow embedding of the polars pipeline in
radar_timeline_data/utils/treatments.py and transplants.py.  Dates are
modelled as integers (days); nullable columns as Option values.  Polars
three-valued (Kleene) boolean logic is modelled on Option Bool, where a
null comparison result is treated as not-true by filters and when/then
chains.  Polars sorts place null values first unless nulls_last is set,
for ascending and descending sorts alike; the comparators below encode
exactly that convention (the repository relies on it, see the comment
"to_date descending as null values are considered the highest" in
group_similar_or_overlapping_range).
-/

namespace RadarTimeline

/-! ## Kleene logic on Option Bool, as used by polars expressions -/

/-- A polars boolean expression counts as satisfied only when it is
literally true; a null result is treated like false by filters and by
when/then chains. -/
def isT (c : Option Bool) : Prop := c = some true

instance (c : Option Bool) : Decidable (isT c) := by unfold isT; infer_instance

/-- Kleene conjunction: false dominates, null is unknown. -/
def kand : Option Bool → Option Bool → Option Bool
  | some false, _ => some false
  | _, some false => some false
  | some true, some true => some true
  | _, _ => none

/-- Kleene disjunction: true dominates, null is unknown. -/
def kor : Option Bool → Option Bool → Option Bool
  | some true, _ => some true
  | _, some true => some true
  | some false, some false => some false
  | _, _ => none

/-- Null-propagating comparison a less-or-equal b on nullable integers. -/
def kle (a b : Option Int) : Option Bool :=
  match a, b with
  | some x, some y => some (decide (x ≤ y))
  | _, _ => none

/-- Null-propagating comparison a greater-or-equal b on nullable integers. -/
def kge (a b : Option Int) : Option Bool :=
  match a, b with
  | some x, some y => some (decide (y ≤ x))
  | _, _ => none

/-- Null-propagating inequality test between two nullable values. -/
def kne {α : Type} [DecidableEq α] (a b : Option α) : Option Bool :=
  match a, b with
  | some x, some y => some (decide (x ≠ y))
  | _, _ => none

/-- Null-propagating absolute difference of two nullable dates. -/
def kabsSub (a b : Option Int) : Option Int :=
  match a, b with
  | some x, some y => some (|x - y|)
  | _, _ => none

/-- Model of pl.max_horizontal on two nullable columns: the larger
non-null value, null only when both are null. -/
def kmaxH (a b : Option Int) : Option Int :=
  match a, b with
  | some x, some y => some (max x y)
  | some x, none => some x
  | none, some y => some y
  | none, none => none

/-! ## Comparators and the stable sort used to model polars sorts -/

/-- Ascending comparator with nulls first (polars default nulls_last=False). -/
def cmpAscNF (a b : Option Int) : Ordering :=
  match a, b with
  | none, none => .eq
  | none, some _ => .lt
  | some _, none => .gt
  | some x, some y => compare x y

/-- Descending comparator with nulls first: under a polars descending
sort with the default nulls_last=False, nulls still come first. -/
def cmpDescNF (a b : Option Int) : Ordering :=
  match a, b with
  | none, none => .eq
  | none, some _ => .lt
  | some _, none => .gt
  | some x, some y => compare y x

/-- Ascending comparator with nulls last (polars nulls_last=True). -/
def cmpAscNL (a b : Option Int) : Ordering :=
  match a, b with
  | none, none => .eq
  | none, some _ => .gt
  | some _, none => .lt
  | some x, some y => compare x y

/-- Stable insertion of an element: x is placed before the first element
that does not strictly precede it, so ties keep their original order. -/
def sInsert {α : Type} (lt : α → α → Bool) (x : α) : List α → List α
  | [] => [x]
  | y :: ys => if lt y x then y :: sInsert lt x ys else x :: y :: ys

/-- Stable sort by a strict precedence test, modelling a polars sort
(deterministic refinement: polars does not promise stability, the claims
proved below do not depend on the order among fully tied rows). -/
def sSort {α : Type} (lt : α → α → Bool) : List α → List α
  | [] => []
  | x :: xs => sInsert lt x (sSort lt xs)

/-! ## Cumulative sum and run-length id, as in polars cum_sum and rle_id -/

/-- Helper for the cumulative sum, carrying the running total. -/
def cumsumFrom (acc : Int) : List Int → List Int
  | [] => []
  | x :: xs => (acc + x) :: cumsumFrom (acc + x) xs

/-- Model of pl.cum_sum on an integer column. -/
def cumsum (l : List Int) : List Int := cumsumFrom 0 l

/-- Helper for run-length ids: prev is the previous value, g the id of
the current run. -/
def rleIdFrom (prev : Int) (g : Nat) : List Int → List Nat
  | [] => []
  | x :: xs =>
    if x = prev then g :: rleIdFrom x g xs
    else (g + 1) :: rleIdFrom x (g + 1) xs

/-- Model of pl.rle_id: maps each run of equal consecutive values to a
sequential id starting at 0. -/
def rleId : List Int → List Nat
  | [] => []
  | x :: xs => 0 :: rleIdFrom x 0 xs

/-- Reference presentation of the group ids produced by the
when/cum_sum/rle_id idiom: the first row opens group 0 and every row
whose new-group flag is set increments the id. -/
def gidFrom (g : Nat) : List Bool → List Nat
  | [] => []
  | b :: bs =>
    if b then (g + 1) :: gidFrom (g + 1) bs else g :: gidFrom g bs

/-- Group ids from the list of new-group flags (first flag ignored: the
first row of a window always starts group 0). -/
def gidScan : List Bool → List Nat
  | [] => []
  | _ :: bs => 0 :: gidFrom 0 bs

/-- The code marks a row 0 when the closeness mask holds and 1 when it
does not (a null mask counts as not holding). -/
def markOfMask (c : Option Bool) : Int := if isT c then 0 else 1

/-- New-group flag of a mask value: set when the mask is not true. -/
def flagOfMask (c : Option Bool) : Bool := !(decide (isT c))

/-! ## Pointwise implication between flag lists (threshold monotonicity) -/

/-- Every flag set in the first list is set in the second. -/
abbrev ptImp (a b : List Bool) : Prop :=
  ∀ k : Nat, a[k]? = some true → b[k]? = some true

/-! ## The episode grouper: group_similar_or_overlapping_range

The function partitions a table by a window key and, inside each window,
runs three sorts, attaches the previous from_date and a best-known prior
to_date bound to every row, evaluates the closeness mask against those
bounds, and turns the resulting 0/1 marks into group ids with
cum_sum followed by rle_id.  Every expression in the source is applied
per window (over(window)), so the embedding computes each window
independently; the source interleaves the windows in the frame, which
only affects row order, left unspecified by the contract (group
membership is per window). -/

/-- Model of Expr.shift: each row sees the previous value, the first row
sees null. -/
def shiftPos {β : Type} (l : List (Option β)) : List (Option β) :=
  (none :: l).take l.length

/-- Model of Expr.shift(-1): each row sees the next value, the last row
sees null. -/
def shiftNeg {β : Type} (l : List (Option β)) : List (Option β) :=
  (l.drop 1 ++ [none]).take l.length

/-- Helper for the forward fill, carrying the last non-null value. -/
def ffillFrom {β : Type} (last : Option β) : List (Option β) → List (Option β)
  | [] => []
  | none :: xs => last :: ffillFrom last xs
  | some v :: xs => some v :: ffillFrom (some v) xs

/-- Model of Expr.forward_fill: nulls take the last non-null value above. -/
def ffill {β : Type} (l : List (Option β)) : List (Option β) :=
  ffillFrom none l

/-- Strict comparator of the sort by from_date ascending then to_date
descending, nulls first in both columns (steps 1 and 3 of the grouper). -/
def ltFromTo {α : Type} (fromD toD : α → Option Int) (a b : α) : Bool :=
  decide (((cmpAscNF (fromD a) (fromD b)).then (cmpDescNF (toD a) (toD b))) = .lt)

/-- Strict comparator of the sort by to_date ascending with nulls last
(step 2 of the grouper). -/
def ltToNL {α : Type} (toD : α → Option Int) (a b : α) : Bool :=
  decide (cmpAscNL (toD a) (toD b) = .lt)

/-- Model of overlapping_dates_bool_mask: the row starts no new group
when its range overlaps the previous bounds or any endpoint pair is
within the day threshold; comparisons against a null endpoint are null
and therefore never count as close. -/
def maskExpr (d : Int) (f t pf pt : Option Int) : Option Bool :=
  kor (kor (kor (kor (kor
    (kand (kle f pt) (kge f pf))
    (kand (kle t pt) (kge t pf)))
    (kle (kabsSub t pf) (some d)))
    (kle (kabsSub f pt) (some d)))
    (kle (kabsSub f pf) (some d)))
    (kle (kabsSub t pt) (some d))

/-- Steps 1 to 3 of the grouper on one window: attach prev_from from the
from/to sort, then prev_to as the shifted and forward-filled to_date of
the to-ascending sort with the next to_date as fallback where no prior
bound exists, and return the rows in the final from/to order together
with their two bounds. -/
def prepWindow {α : Type} (fromD toD : α → Option Int) (rows : List α) :
    List (α × Option Int × Option Int) :=
  let s1 := sSort (ltFromTo fromD toD) rows
  let a1 := s1.zip (shiftPos (s1.map fromD))
  let s2 := sSort (fun x y => ltToNL toD x.1 y.1) a1
  let toCol := s2.map (fun x => toD x.1)
  let filled := ffill (shiftPos toCol)
  let nextTo := shiftNeg toCol
  let prevTo := List.zipWith (fun p n => if p = none then n else p) filled nextTo
  let a2 := List.zipWith (fun x pt => (x.1, x.2, pt)) s2 prevTo
  sSort (fun x y => ltFromTo fromD toD x.1 y.1) a2

/-- The closeness mask of one prepared row. -/
def maskRow {α : Type} (fromD toD : α → Option Int) (d : Int)
    (x : α × Option Int × Option Int) : Option Bool :=
  maskExpr d (fromD x.1) (toD x.1) x.2.1 x.2.2

/-- One window of group_similar_or_overlapping_range: each row of the
window paired with its group id. -/
def windowGids {α : Type} (fromD toD : α → Option Int) (d : Int)
    (rows : List α) : List (α × Nat) :=
  ((prepWindow fromD toD rows).map (fun x => x.1)).zip
    (rleId (cumsum
      (((prepWindow fromD toD rows).map (maskRow fromD toD d)).map markOfMask)))

/-- Full group_similar_or_overlapping_range: windows are the distinct
values of the window key; group ids are per window, as produced by
over(window). -/
def groupRange {α K : Type} [DecidableEq K] (fromD toD : α → Option Int)
    (key : α → K) (d : Int) (rows : List α) : List (α × Nat) :=
  ((rows.map key).dedup).flatMap
    (fun k => windowGids fromD toD d (rows.filter (fun r => decide (key r = k))))

/-! ## Episode rows for the treatment grouping claims -/

/-- A treatment episode as seen by the grouper: window key fields, the
date range, and a tag standing for the ride-along columns. -/
structure GRow where
  patient_id : Int
  from_date : Option Int
  to_date : Option Int
  tag : Nat
deriving DecidableEq, Repr

/-! ## Threshold monotonicity of the grouper -/

/-- The new-group flags of one window at a given threshold. -/
def flagsList {α : Type} (fromD toD : α → Option Int) (d : Int)
    (rows : List α) : List Bool :=
  (prepWindow fromD toD rows).map (fun x => flagOfMask (maskRow fromD toD d x))

/-! ## The combined treatment table

combine_treatment_dataframes concatenates the per-source tables
(diagonal concat: missing columns become null), derives recent_date as
the horizontal max of created_date and modified_date, encodes
source_type into its priority number (unknown labels become null), and
groups by (patient_id, modality) with the 5-day threshold.  The sort it
performs before grouping only fixes the order of fully tied rows, which
the grouper re-sorts; the reduce below sorts each cluster itself, as the
code re-sorts the whole grouped table before group_by. -/

/-- A per-source treatment row before combining (source_type still a
label). -/
structure MRow where
  patient_id : Int
  id : Option String
  from_date : Option Int
  to_date : Option Int
  modality : Option Int
  source_group_id : Option Int
  source_type : Option String
  created_date : Option Int
  modified_date : Option Int
deriving DecidableEq, Repr

/-- A combined treatment row: source_type priority-encoded, recent_date
derived. -/
structure TRow where
  patient_id : Int
  id : Option String
  from_date : Option Int
  to_date : Option Int
  modality : Option Int
  source_group_id : Option Int
  source_type : Option Int
  created_date : Option Int
  modified_date : Option Int
  recent_date : Option Int
deriving DecidableEq, Repr

/-- The source_type encoding of combine_treatment_dataframes: position
in the priority order, null for a label outside it (replace with
default=None). -/
def encodeSourceType (s : Option String) : Option Int :=
  s.bind (fun v =>
    if v = "NHSBT LIST" then some 0
    else if v = "BATCH" then some 1
    else if v = "UKRDC" then some 2
    else if v = "RADAR" then some 3
    else if v = "RR" then some 4
    else none)

/-- The inverse replace used on output: priority numbers back to labels,
anything else (including null) to null. -/
def decodeSourceType (p : Option Int) : Option String :=
  p.bind (fun v =>
    if v = 0 then some "NHSBT LIST"
    else if v = 1 then some "BATCH"
    else if v = 2 then some "UKRDC"
    else if v = 3 then some "RADAR"
    else if v = 4 then some "RR"
    else none)

/-- Columnwise part of combine_treatment_dataframes on one row. -/
def combineRow (r : MRow) : TRow :=
  { patient_id := r.patient_id
  , id := r.id
  , from_date := r.from_date
  , to_date := r.to_date
  , modality := r.modality
  , source_group_id := r.source_group_id
  , source_type := encodeSourceType r.source_type
  , created_date := r.created_date
  , modified_date := r.modified_date
  , recent_date := kmaxH r.created_date r.modified_date }

/-- combine_treatment_dataframes: concatenation, recent_date,
priority encoding, then grouping per (patient_id, modality) at the
5-day threshold. -/
def combineTreatmentDataframes (tables : List (List MRow)) : List (TRow × Nat) :=
  groupRange TRow.from_date TRow.to_date
    (fun r => (r.patient_id, r.modality)) 5 ((tables.flatten).map combineRow)

/-- Descending comparator on non-null integers. -/
def cmpDescInt (x y : Int) : Ordering := compare y x

/-- Strict comparator of the sort in
group_and_reduce_combined_treatment_dataframe: patient_id, source_type,
recent_date, from_date, all descending with nulls first. -/
def ltCluster (a b : TRow) : Bool :=
  decide ((((cmpDescInt a.patient_id b.patient_id).then
    (cmpDescNF a.source_type b.source_type)).then
    (cmpDescNF a.recent_date b.recent_date)).then
    (cmpDescNF a.from_date b.from_date) = .lt)

/-- First non-null value of a column, as in
col.filter(col.is_not_null()).first(). -/
def firstSome {β : Type} : List (Option β) → Option β
  | [] => none
  | some v :: _ => some v
  | none :: xs => firstSome xs

/-- An output row of group_and_reduce_combined_treatment_dataframe (the
nine selected columns; source_type decoded back to its label). -/
structure CRow where
  patient_id : Int
  id : Option String
  from_date : Option Int
  to_date : Option Int
  modality : Option Int
  source_group_id : Option Int
  source_type : Option String
  created_date : Option Int
  modified_date : Option Int
deriving DecidableEq, Repr

/-- Reduce of one (patient_id, modality, group_id) cluster of the
combined table: rows are taken in the frame order left by the sort on
(patient_id, source_type, recent_date, from_date) all descending; the
id is the first non-null id in that order and every other column takes
the first value (patient_id and modality are group keys). -/
def reduceCluster (c : List TRow) : CRow :=
  let s := sSort ltCluster c
  { patient_id := ((s.head?).map TRow.patient_id).getD 0
  , id := firstSome (s.map TRow.id)
  , from_date := (s.head?).bind TRow.from_date
  , to_date := (s.head?).bind TRow.to_date
  , modality := (s.head?).bind TRow.modality
  , source_group_id := (s.head?).bind TRow.source_group_id
  , source_type := decodeSourceType ((s.head?).bind TRow.source_type)
  , created_date := (s.head?).bind TRow.created_date
  , modified_date := (s.head?).bind TRow.modified_date }

/-- group_and_reduce_combined_treatment_dataframe: one canonical row per
(patient_id, modality, group_id) of the grouped combined table. -/
def groupAndReduceCombined (g : List (TRow × Nat)) : List CRow :=
  ((g.map (fun x => (x.1.patient_id, x.1.modality, x.2))).dedup).map
    (fun k => reduceCluster
      ((g.filter
        (fun x => decide ((x.1.patient_id, x.1.modality, x.2) = k))).map Prod.fst))

/-! ## Kleene helpers for string columns (transplants) -/

/-- Null-propagating negation. -/
def knot (c : Option Bool) : Option Bool := c.map (fun b => !b)

/-- Null-propagating equality of a string column with a literal. -/
def keqS (o : Option String) (s : String) : Option Bool :=
  o.map (fun v => decide (v = s))

/-- Null-propagating is_in on a string column. -/
def kIsIn (o : Option String) (l : List String) : Option Bool :=
  o.map (fun v => decide (v ∈ l))

/-- The transplant post-reduce sanity check on the source_type column: it
raises when the filter on the negated is_in keeps a row, so a null label,
whose negated test is null, never triggers it. -/
def transplantSanityRaises (labels : List (Option String)) : Bool :=
  labels.any (fun s =>
    decide (isT (knot (kIsIn s ["NHSBT LIST", "BATCH", "UKRDC", "RADAR", "RR"]))))

/-! ## The per-source reduce of group_and_reduce_ukrdc_or_rr_dataframe -/

/-- A per-source treatment row inside
group_and_reduce_ukrdc_or_rr_dataframe. -/
structure RRow where
  patient_id : Int
  modality : Option Int
  id : Option String
  source_group_id : Option Int
  source_type : Option String
  from_date : Option Int
  to_date : Option Int
  created_date : Option Int
  modified_date : Option Int
deriving DecidableEq, Repr

/-- The derived most_recent_date column: horizontal max of created and
modified dates. -/
def mostRecent (r : RRow) : Option Int := kmaxH r.created_date r.modified_date

/-- Faithful model of max_with_nulls from utils.py and polar_utils.py:
sort the column descending with nulls_last=False and take the first
element.  Polars places nulls first in a descending sort unless
nulls_last is set, so any null in the column wins. -/
def max_with_nulls (l : List (Option Int)) : Option Int :=
  ((sSort (fun a b => decide (cmpDescNF a b = .lt)) l).head?).join

/-- Model of the min aggregation, which ignores nulls. -/
def minAgg (l : List (Option Int)) : Option Int :=
  (l.filterMap (fun x => x)).foldr
    (fun x acc => some (match acc with | none => x | some y => min x y)) none

/-- Reduce of one (patient_id, modality, group_id) cluster in
group_and_reduce_ukrdc_or_rr_dataframe: the frame is sorted by
most_recent_date descending (nulls first); from_date takes the minimum,
to_date takes max_with_nulls, every other column takes the first value
in that order. -/
def reduceUkrdcRr (c : List RRow) : RRow :=
  let s := sSort
    (fun a b => decide (cmpDescNF (mostRecent a) (mostRecent b) = .lt)) c
  { patient_id := ((s.head?).map RRow.patient_id).getD 0
  , modality := (s.head?).bind RRow.modality
  , id := (s.head?).bind RRow.id
  , source_group_id := (s.head?).bind RRow.source_group_id
  , source_type := (s.head?).bind RRow.source_type
  , from_date := minAgg (s.map RRow.from_date)
  , to_date := max_with_nulls (s.map RRow.to_date)
  , created_date := (s.head?).bind RRow.created_date
  , modified_date := (s.head?).bind RRow.modified_date }

/-- Pairwise closeness of two episodes: the grouper mask evaluated
directly on the endpoints of the earlier episode as the prior bounds. -/
def closePair (d : Int) (x y : GRow) : Prop :=
  isT (maskExpr d y.from_date y.to_date x.from_date x.to_date)

instance (d : Int) (x y : GRow) : Decidable (closePair d x y) := by
  unfold closePair; infer_instance

/-! ## The change splitter: split_combined_dataframe

The splitter selects the canonical columns from the full (combined)
table, decodes its source_type labels, splits the reduced table on null
ids, left-joins the non-null-id rows back to the full table by id,
keeps only the joined rows where the null-propagating inequality of
some non-id column (patient_id, from_date, to_date, modality,
source_group_id, source_type, created_date, modified_date) is literally
true, and finally replaces created_date by the joined old value.  The
source contains no raise: a row whose id has no match in the full table
gets all-null old columns, every inequality is null, and the row is
silently dropped by the filter. -/

/-- The select of the nine canonical columns from a combined row, with
source_type decoded back to its label. -/
def projT (r : TRow) : CRow :=
  { patient_id := r.patient_id
  , id := r.id
  , from_date := r.from_date
  , to_date := r.to_date
  , modality := r.modality
  , source_group_id := r.source_group_id
  , source_type := decodeSourceType r.source_type
  , created_date := r.created_date
  , modified_date := r.modified_date }

/-- The no-op mask: the null-propagating disjunction of the non-id
column inequalities between a canonical row and its joined old row
(all old columns null when the join found no match). -/
def maskAnyDiff (r : CRow) (po : Option CRow) : Option Bool :=
  List.foldl kor (kne (some r.patient_id) (po.map CRow.patient_id))
    [kne r.from_date (po.bind CRow.from_date),
     kne r.to_date (po.bind CRow.to_date),
     kne r.modality (po.bind CRow.modality),
     kne r.source_group_id (po.bind CRow.source_group_id),
     kne r.source_type (po.bind CRow.source_type),
     kne r.created_date (po.bind CRow.created_date),
     kne r.modified_date (po.bind CRow.modified_date)]

/-- The left join by id of one canonical row against the projected full
table: one output row per match, or a single row with a null old side
when there is none. -/
def joinOld (full : List CRow) (r : CRow) : List (CRow × Option CRow) :=
  match full.filter (fun f => decide (f.id = r.id)) with
  | [] => [(r, none)]
  | m :: ms => (m :: ms).map (fun f => (r, some f))

/-- Restore the immutable created_date from the joined old row. -/
def restoreCreated (x : CRow × Option CRow) : CRow :=
  { x.1 with created_date := x.2.bind CRow.created_date }

/-- split_combined_dataframe: update rows (non-null id, joined, no-op
filtered, created_date restored) and new rows (null id). -/
def splitCombinedDataframe (full : List (TRow × Nat)) (reduced : List CRow) :
    List CRow × List CRow :=
  ((((reduced.filter (fun r => r.id.isSome)).flatMap
      (fun r => joinOld ((full.map Prod.fst).map projT) r)).filter
      (fun x => decide (isT (maskAnyDiff x.1 x.2)))).map restoreCreated,
   reduced.filter (fun r => decide (r.id = none)))

/-- Two nullable values differ in the polars sense: both non-null and
unequal. -/
def bothSomeNe {β : Type} [DecidableEq β] (a b : Option β) : Prop :=
  ∃ va vb, a = some va ∧ b = some vb ∧ va ≠ vb

/-- Some compared column of a canonical row differs from the prior
record under null-propagating comparison. -/
def diffAnyCol (r p : CRow) : Prop :=
  r.patient_id ≠ p.patient_id
  ∨ bothSomeNe r.from_date p.from_date
  ∨ bothSomeNe r.to_date p.to_date
  ∨ bothSomeNe r.modality p.modality
  ∨ bothSomeNe r.source_group_id p.source_group_id
  ∨ bothSomeNe r.source_type p.source_type
  ∨ bothSomeNe r.created_date p.created_date
  ∨ bothSomeNe r.modified_date p.modified_date

/-! ## The transplant grouper

In transplant_run and group_and_reduce_transplant_rr the table is
sorted by patient_id and date, every column is shifted per patient, the
mask compares only the date to the shifted date with a five day bound
(date_of_failure does not appear in the mask), and group ids come from
the usual when/cum_sum/rle_id idiom per patient. -/

/-- A transplant row: the grouping uses only the patient partition and
the start date; the failure date and a tag stand for the remaining
columns. -/
structure XRow where
  patient_id : Int
  date : Option Int
  date_of_failure : Option Int
  tag : Nat
deriving DecidableEq, Repr

/-- Strict comparator of the transplant sort by date ascending with
nulls first (within one patient partition of the patient_id, date
sort). -/
def ltDate (a b : XRow) : Bool := decide (cmpAscNF a.date b.date = .lt)

/-- The transplant closeness mask column of one patient partition. -/
def transplantMasks (rows : List XRow) : List (Option Bool) :=
  List.zipWith (fun r pd => kle (kabsSub r.date pd) (some 5))
    (sSort ltDate rows) (shiftPos ((sSort ltDate rows).map XRow.date))

/-- One patient partition of the transplant grouping. -/
def transplantWindow (rows : List XRow) : List (XRow × Nat) :=
  (sSort ltDate rows).zip
    (rleId (cumsum ((transplantMasks rows).map markOfMask)))

/-- The full transplant grouping: partitions are patients. -/
def groupTransplants (rows : List XRow) : List (XRow × Nat) :=
  ((rows.map XRow.patient_id).dedup).flatMap
    (fun k => transplantWindow (rows.filter (fun r => decide (r.patient_id = k))))

/-- Pointwise rewrite of date_of_failure, used to state that the
failure date never takes part in the grouping decision. -/
def setDof (f : XRow → Option Int) (r : XRow) : XRow :=
  { r with date_of_failure := f r }

/-! ## The transplant modality resolver -/

/-- A when/then chain: the first condition that is literally true picks
its value; a null condition is skipped; otherwise(None) at the end. -/
def whenChain : List (Option Bool × Int) → Option Int
  | [] => none
  | (c, v) :: rest => if isT c then some v else whenChain rest

/-- Faithful model of get_rr_transplant_modality on one row: the
ordered when/then chain over donor type, relationship and sex, with
polars Kleene semantics. -/
def getRRTransplantModality (ttype trel tsex : Option String) : Option Int :=
  whenChain
    [ (kand (kIsIn ttype ["Live"]) (keqS trel "0"), 77)
    , (kand (kIsIn ttype ["Live"])
        (kIsIn trel ["3", "4", "5", "6", "7", "8"]), 21)
    , (kand (kand (kIsIn ttype ["Live"]) (keqS trel "2")) (keqS tsex "1"), 74)
    , (kand (kand (kIsIn ttype ["Live"]) (keqS trel "2")) (keqS tsex "2"), 75)
    , (kand (kIsIn ttype ["Live"]) (keqS trel "9"), 23)
    , (kand (kIsIn ttype ["Live"])
        (kIsIn trel ["11", "12", "15", "16", "19", "10"]), 24)
    , (kIsIn ttype ["DCD", "DBD"], 20)
    , (kIsIn trel ["88", "99"], 99) ]

/-- The decision table in the words of the claim: ordered rules, first
match wins, every other combination maps to null. -/
def specTransplantModality (ttype trel tsex : Option String) : Option Int :=
  if ttype = some "Live" ∧ trel = some "0" then some 77
  else if ttype = some "Live" ∧ (trel = some "3" ∨ trel = some "4"
      ∨ trel = some "5" ∨ trel = some "6" ∨ trel = some "7"
      ∨ trel = some "8") then some 21
  else if ttype = some "Live" ∧ trel = some "2" ∧ tsex = some "1" then some 74
  else if ttype = some "Live" ∧ trel = some "2" ∧ tsex = some "2" then some 75
  else if ttype = some "Live" ∧ trel = some "9" then some 23
  else if ttype = some "Live" ∧ (trel = some "11" ∨ trel = some "12"
      ∨ trel = some "15" ∨ trel = some "16" ∨ trel = some "19"
      ∨ trel = some "10") then some 24
  else if ttype = some "DCD" ∨ ttype = some "DBD" then some 20
  else if trel = some "88" ∨ trel = some "99" then some 99
  else none

theorem sInsert_perm {α : Type} (lt : α → α → Bool) (x : α) (l : List α) :
    (sInsert lt x l).Perm (x :: l) := by
  induction l with
  | nil => simp [sInsert]
  | cons y ys ih =>
    by_cases h : lt y x = true
    · simpa [sInsert, h] using ((ih.cons y).trans (List.Perm.swap x y ys))
    · simp [sInsert, h]

theorem sSort_perm {α : Type} (lt : α → α → Bool) (l : List α) :
    (sSort lt l).Perm l := by
  induction l with
  | nil => simp [sSort]
  | cons x xs ih => exact (sInsert_perm lt x (sSort lt xs)).trans (ih.cons x)

theorem rleIdFrom_cumsumFrom_flags (acc : Int) (g : Nat) (bs : List Bool) :
    rleIdFrom acc g (cumsumFrom acc (bs.map (fun b => if b then 1 else 0)))
      = gidFrom g bs := by
  induction bs generalizing acc g with
  | nil => simp [cumsumFrom, rleIdFrom, gidFrom]
  | cons b bs ih =>
    cases b <;> simp [cumsumFrom, rleIdFrom, gidFrom, ih]

/-- Bridge between the faithful cum_sum/rle_id pipeline and the simple
scan of new-group flags. -/
theorem rleId_cumsum_flags (bs : List Bool) :
    rleId (cumsum (bs.map (fun b => if b then 1 else 0))) = gidScan bs := by
  cases bs with
  | nil => simp [rleId, cumsum, cumsumFrom, gidScan]
  | cons b bs =>
    cases b <;>
      simp [rleId, cumsum, cumsumFrom, gidScan, rleIdFrom_cumsumFrom_flags]

theorem gidFrom_length (g : Nat) (bs : List Bool) :
    (gidFrom g bs).length = bs.length := by
  induction bs generalizing g with
  | nil => simp [gidFrom]
  | cons b bs ih => cases b <;> simp [gidFrom, ih]

theorem gidScan_length (bs : List Bool) : (gidScan bs).length = bs.length := by
  cases bs with
  | nil => simp [gidScan]
  | cons b bs => simp [gidScan, gidFrom_length]

theorem gidFrom_get? (g : Nat) (bs : List Bool) (j : Nat) (hj : j < bs.length) :
    (gidFrom g bs)[j]? = some (g + (bs.take (j + 1)).count true) := by
  induction bs generalizing g j with
  | nil => simp at hj
  | cons b bs ih =>
    cases j with
    | zero => cases b <;> simp [gidFrom, List.count_cons]
    | succ j =>
      have hj' : j < bs.length := by simpa using hj
      have ht : (b :: bs).take (j + 1 + 1) = b :: bs.take (j + 1) := rfl
      cases b
      · have hdef : gidFrom g (false :: bs) = g :: gidFrom g bs := by
          simp [gidFrom]
        rw [hdef, List.getElem?_cons_succ, ih g j hj', ht, List.count_cons]
        simp
      · have hdef : gidFrom g (true :: bs) = (g + 1) :: gidFrom (g + 1) bs := by
          simp [gidFrom]
        rw [hdef, List.getElem?_cons_succ, ih (g + 1) j hj', ht, List.count_cons]
        simp
        omega

/-- Each group id equals the number of new-group flags among the rows
after the first one, up to and including the current row. -/
theorem gidScan_get? (bs : List Bool) (j : Nat) (hj : j < bs.length) :
    (gidScan bs)[j]? = some ((bs.tail.take j).count true) := by
  cases bs with
  | nil => simp at hj
  | cons b bs =>
    cases j with
    | zero => simp [gidScan]
    | succ j =>
      have hj' : j < bs.length := by simpa using hj
      show (0 :: gidFrom 0 bs)[j + 1]? = _
      rw [List.getElem?_cons_succ, gidFrom_get? 0 bs j hj']
      simp

theorem gidFrom_toFinset (g : Nat) (b : Bool) (bs : List Bool) :
    (gidFrom g (b :: bs)).toFinset
      = Finset.Icc (g + (if b then 1 else 0)) (g + (b :: bs).count true) := by
  induction bs generalizing g b with
  | nil =>
    cases b <;> simp [gidFrom, List.count_cons]
  | cons b2 bs ih =>
    have step : gidFrom g (b :: b2 :: bs)
        = (g + (if b then 1 else 0)) :: gidFrom (g + (if b then 1 else 0)) (b2 :: bs) := by
      cases b <;> simp [gidFrom]
    rw [step]
    simp only [List.toFinset_cons, ih]
    ext x
    have hcnt : ((b2 :: bs).count true : Nat) ≥ (if b2 then 1 else 0) := by
      cases b2 <;> simp [List.count_cons]
    cases b <;> cases b2 <;>
      simp_all [List.count_cons, Finset.mem_Icc, Finset.mem_insert] <;> omega

/-- The distinct group ids form an initial segment, of size one plus the
number of new-group flags after the first row. -/
theorem gidScan_toFinset_card (b : Bool) (bs : List Bool) :
    (gidScan (b :: bs)).toFinset.card = 1 + bs.count true := by
  cases bs with
  | nil => simp [gidScan, gidFrom]
  | cons b2 bs =>
    have : (gidScan (b :: b2 :: bs)).toFinset
        = insert 0 ((gidFrom 0 (b2 :: bs)).toFinset) := by
      simp [gidScan]
    rw [this, gidFrom_toFinset]
    have hcnt : ((b2 :: bs).count true : Nat) ≥ (if b2 then 1 else 0) := by
      cases b2 <;> simp [List.count_cons]
    have hins : insert 0 (Finset.Icc (0 + (if b2 then 1 else 0)) (0 + (b2 :: bs).count true))
        = Finset.Icc 0 ((b2 :: bs).count true) := by
      ext x
      cases b2 <;> simp_all [Finset.mem_Icc, Finset.mem_insert] <;> omega
    rw [hins, Nat.card_Icc]
    omega

theorem ptImp_cons {x y : Bool} {a b : List Bool}
    (h : ptImp (x :: a) (y :: b)) : (x = true → y = true) ∧ ptImp a b := by
  constructor
  · intro hx
    have := h 0 (by simp [hx])
    simpa using this
  · intro k hk
    have := h (k + 1) (by simpa using hk)
    simpa using this

theorem count_true_eq_zero_of_ptImp {a b : List Bool}
    (h : ptImp a b) (hb : b.count true = 0) : a.count true = 0 := by
  rw [List.count_eq_zero] at hb ⊢
  intro hmem
  obtain ⟨i, hi⟩ := List.mem_iff_getElem?.mp hmem
  exact hb (List.mem_iff_getElem?.mpr ⟨i, h i hi⟩)

theorem count_true_le_of_ptImp {a b : List Bool}
    (h : ptImp a b) : a.count true ≤ b.count true := by
  induction a generalizing b with
  | nil => simp
  | cons x xs ih =>
    cases b with
    | nil =>
      have h0 : (x :: xs).count true = 0 :=
        count_true_eq_zero_of_ptImp h (by simp)
      omega
    | cons y ys =>
      obtain ⟨himp, htail⟩ := ptImp_cons h
      have hih := ih htail
      cases x with
      | false => cases y <;> simp [List.count_cons] <;> omega
      | true =>
        have hy : y = true := himp rfl
        subst hy
        simp [List.count_cons]
        omega

theorem ptImp_drop {a b : List Bool} (h : ptImp a b) (m : Nat) :
    ptImp (a.drop m) (b.drop m) := by
  intro k hk
  rw [List.getElem?_drop] at hk ⊢
  exact h _ hk

theorem ptImp_take {a b : List Bool} (h : ptImp a b) (m : Nat) :
    ptImp (a.take m) (b.take m) := by
  intro k hk
  by_cases hk' : k < m
  · rw [List.getElem?_take_of_lt hk'] at hk
    rw [List.getElem?_take_of_lt hk']
    exact h _ hk
  · exfalso
    have hnone : (a.take m)[k]? = none := by
      apply List.getElem?_eq_none
      have := List.length_take m a
      omega
    rw [hnone] at hk
    exact Option.noConfusion hk

theorem markOfMask_eq (m : Option Bool) :
    markOfMask m = if flagOfMask m then 1 else 0 := by
  by_cases h : isT m <;> simp [markOfMask, flagOfMask, h]

theorem rleId_length (l : List Int) : (rleId l).length = l.length := by
  cases l with
  | nil => simp [rleId]
  | cons x xs =>
    have aux : ∀ (ys : List Int) (p : Int) (g : Nat),
        (rleIdFrom p g ys).length = ys.length := by
      intro ys
      induction ys with
      | nil => intro p g; simp [rleIdFrom]
      | cons y ys ih =>
        intro p g
        by_cases h : y = p <;> simp [rleIdFrom, h, ih]
    simp [rleId, aux]

theorem cumsum_length (l : List Int) : (cumsum l).length = l.length := by
  have aux : ∀ (ys : List Int) (acc : Int),
      (cumsumFrom acc ys).length = ys.length := by
    intro ys
    induction ys with
    | nil => intro acc; simp [cumsumFrom]
    | cons y ys ih => intro acc; simp [cumsumFrom, ih]
  simp [cumsum, aux]

/-- The group-id column of one window equals the scan of its new-group
flags. -/
theorem windowGids_snd {α : Type} (fromD toD : α → Option Int) (d : Int)
    (rows : List α) :
    (windowGids fromD toD d rows).map Prod.snd
      = gidScan (flagsList fromD toD d rows) := by
  unfold windowGids flagsList
  have hmarks :
      ((prepWindow fromD toD rows).map (maskRow fromD toD d)).map markOfMask
        = ((prepWindow fromD toD rows).map
            (fun x => flagOfMask (maskRow fromD toD d x))).map
            (fun b => if b then 1 else 0) := by
    simp [List.map_map, Function.comp_def, markOfMask_eq]
  rw [hmarks, rleId_cumsum_flags]
  apply List.map_snd_zip
  rw [gidScan_length]
  simp

theorem windowGids_fst {α : Type} (fromD toD : α → Option Int) (d : Int)
    (rows : List α) :
    (windowGids fromD toD d rows).map Prod.fst
      = (prepWindow fromD toD rows).map (fun x => x.1) := by
  unfold windowGids
  apply List.map_fst_zip
  rw [rleId_length, cumsum_length]
  simp

theorem isT_kor {a b : Option Bool} : isT (kor a b) ↔ isT a ∨ isT b := by
  rcases a with _ | x <;> rcases b with _ | y
  · decide
  · cases y <;> decide
  · cases x <;> decide
  · cases x <;> cases y <;> decide

/-- The closeness mask is monotone in the day threshold. -/
theorem maskExpr_mono {d1 d2 : Int} (hd : d1 ≤ d2) {f t pf pt : Option Int}
    (h : isT (maskExpr d1 f t pf pt)) : isT (maskExpr d2 f t pf pt) := by
  unfold maskExpr at h ⊢
  have hdiff : ∀ a b : Option Int,
      isT (kle (kabsSub a b) (some d1)) → isT (kle (kabsSub a b) (some d2)) := by
    intro a b hab
    cases a <;> cases b <;> simp [kabsSub, kle, isT] at hab ⊢ <;> omega
  rcases isT_kor.mp h with h5 | h4
  · rcases isT_kor.mp h5 with h6 | h3
    · rcases isT_kor.mp h6 with h7 | h2
      · rcases isT_kor.mp h7 with h8 | h1
        · rcases isT_kor.mp h8 with ho1 | ho2
          · exact isT_kor.mpr (.inl (isT_kor.mpr (.inl (isT_kor.mpr (.inl
              (isT_kor.mpr (.inl (isT_kor.mpr (.inl ho1)))))))))
          · exact isT_kor.mpr (.inl (isT_kor.mpr (.inl (isT_kor.mpr (.inl
              (isT_kor.mpr (.inl (isT_kor.mpr (.inr ho2)))))))))
        · exact isT_kor.mpr (.inl (isT_kor.mpr (.inl (isT_kor.mpr (.inl
            (isT_kor.mpr (.inr (hdiff _ _ h1))))))))
      · exact isT_kor.mpr (.inl (isT_kor.mpr (.inl (isT_kor.mpr (.inr
          (hdiff _ _ h2))))))
    · exact isT_kor.mpr (.inl (isT_kor.mpr (.inr (hdiff _ _ h3))))
  · exact isT_kor.mpr (.inr (hdiff _ _ h4))

/-- Raising the threshold can only clear new-group flags. -/
theorem flagsList_ptImp {α : Type} (fromD toD : α → Option Int)
    {d1 d2 : Int} (hd : d1 ≤ d2) (rows : List α) :
    ptImp (flagsList fromD toD d2 rows) (flagsList fromD toD d1 rows) := by
  intro k hk
  unfold flagsList at hk ⊢
  rw [List.getElem?_map] at hk ⊢
  obtain ⟨x, hx, hflag⟩ := Option.map_eq_some'.mp hk
  rw [hx]
  have h1 : flagOfMask (maskRow fromD toD d1 x) = true := by
    unfold flagOfMask at hflag ⊢
    by_contra hc
    simp at hc hflag
    exact hflag (maskExpr_mono hd hc)
  simp [h1]

/-- Claim C7: for a fixed input and window and thresholds d1 le d2, the
grouping at d2 keeps the same rows in the same order, has no more
distinct group ids within the window, and never separates two rows that
the grouping at d1 placed in one group.  Each window of the full
grouper is windowGids applied to the rows of that window. -/
theorem C7_threshold_monotonicity {α : Type} (fromD toD : α → Option Int)
    (d1 d2 : Int) (hd : d1 ≤ d2) (rows : List α) :
    ((windowGids fromD toD d2 rows).map Prod.fst
        = (windowGids fromD toD d1 rows).map Prod.fst)
    ∧ ((windowGids fromD toD d2 rows).map Prod.snd).toFinset.card
        ≤ ((windowGids fromD toD d1 rows).map Prod.snd).toFinset.card
    ∧ (∀ i j : Nat, i ≤ j →
        ((windowGids fromD toD d1 rows).map Prod.snd)[i]?
          = ((windowGids fromD toD d1 rows).map Prod.snd)[j]? →
        ((windowGids fromD toD d2 rows).map Prod.snd)[i]?
          = ((windowGids fromD toD d2 rows).map Prod.snd)[j]?) := by
  have hpt : ptImp (flagsList fromD toD d2 rows) (flagsList fromD toD d1 rows) :=
    flagsList_ptImp fromD toD hd rows
  have hlen1 : (flagsList fromD toD d1 rows).length
      = (prepWindow fromD toD rows).length := by simp [flagsList]
  have hlen2 : (flagsList fromD toD d2 rows).length
      = (prepWindow fromD toD rows).length := by simp [flagsList]
  rw [windowGids_fst, windowGids_fst, windowGids_snd, windowGids_snd]
  refine ⟨rfl, ?_, ?_⟩
  · cases hp : prepWindow fromD toD rows with
    | nil => simp [flagsList, hp, gidScan]
    | cons x xs =>
      have e1 : flagsList fromD toD d1 rows
          = flagOfMask (maskRow fromD toD d1 x)
            :: xs.map (fun y => flagOfMask (maskRow fromD toD d1 y)) := by
        simp [flagsList, hp]
      have e2 : flagsList fromD toD d2 rows
          = flagOfMask (maskRow fromD toD d2 x)
            :: xs.map (fun y => flagOfMask (maskRow fromD toD d2 y)) := by
        simp [flagsList, hp]
      rw [e1, e2, gidScan_toFinset_card, gidScan_toFinset_card]
      have htails : ptImp (xs.map (fun y => flagOfMask (maskRow fromD toD d2 y)))
          (xs.map (fun y => flagOfMask (maskRow fromD toD d1 y))) := by
        have h := hpt
        rw [e1, e2] at h
        exact (ptImp_cons h).2
      have := count_true_le_of_ptImp htails
      omega
  · intro i j hij heq
    by_cases hj : j < (prepWindow fromD toD rows).length
    · have hi : i < (prepWindow fromD toD rows).length := lt_of_le_of_lt hij hj
      rw [gidScan_get? _ i (by rw [hlen1]; omega),
        gidScan_get? _ j (by rw [hlen1]; omega)] at heq
      have hc : (((flagsList fromD toD d1 rows).tail.take i).count true)
          = (((flagsList fromD toD d1 rows).tail.take j).count true) :=
        Option.some.inj heq
      have hsum : i + (j - i) = j := by omega
      have hsplit1 : (flagsList fromD toD d1 rows).tail.take j
          = (flagsList fromD toD d1 rows).tail.take i
            ++ ((flagsList fromD toD d1 rows).tail.drop i).take (j - i) := by
        have h := List.take_add (flagsList fromD toD d1 rows).tail i (j - i)
        rw [hsum] at h
        exact h
      have hmid1 : ((((flagsList fromD toD d1 rows).tail.drop i).take (j - i)).count true)
          = 0 := by
        rw [hsplit1, List.count_append] at hc
        omega
      have hptt : ptImp (flagsList fromD toD d2 rows).tail
          (flagsList fromD toD d1 rows).tail := by
        simpa [List.drop_one] using ptImp_drop hpt 1
      have hmid2 : ((((flagsList fromD toD d2 rows).tail.drop i).take (j - i)).count true)
          = 0 :=
        count_true_eq_zero_of_ptImp (ptImp_take (ptImp_drop hptt i) (j - i)) hmid1
      rw [gidScan_get? _ i (by rw [hlen2]; omega),
        gidScan_get? _ j (by rw [hlen2]; omega)]
      have hsplit2 : (flagsList fromD toD d2 rows).tail.take j
          = (flagsList fromD toD d2 rows).tail.take i
            ++ ((flagsList fromD toD d2 rows).tail.drop i).take (j - i) := by
        have h := List.take_add (flagsList fromD toD d2 rows).tail i (j - i)
        rw [hsum] at h
        exact h
      rw [hsplit2, List.count_append, hmid2]
      simp
    · by_cases hi : i < (prepWindow fromD toD rows).length
      · exfalso
        rw [gidScan_get? _ i (by rw [hlen1]; omega),
          List.getElem?_eq_none (by rw [gidScan_length, hlen1]; omega)] at heq
        exact Option.noConfusion heq
      · rw [List.getElem?_eq_none (by rw [gidScan_length, hlen2]; omega),
          List.getElem?_eq_none (by rw [gidScan_length, hlen2]; omega)]

/-- Witness for claim C7: the theorem applied at a concrete window with
thresholds 2 and 7 and at the concrete index pair 0, 1, which the
2-day grouping already places in one group. -/
theorem C7_threshold_monotonicity_witness :
    ((2 : Int) ≤ 7)
    ∧ ((0 : Nat) ≤ 1)
    ∧ (((windowGids GRow.from_date GRow.to_date 2
          [⟨1, some 0, some 3, 0⟩, ⟨1, some 4, some 8, 1⟩]).map Prod.snd)[0]?
        = ((windowGids GRow.from_date GRow.to_date 2
          [⟨1, some 0, some 3, 0⟩, ⟨1, some 4, some 8, 1⟩]).map Prod.snd)[1]?)
    ∧ ((windowGids GRow.from_date GRow.to_date 7
          [⟨1, some 0, some 3, 0⟩, ⟨1, some 4, some 8, 1⟩]).map Prod.fst
        = (windowGids GRow.from_date GRow.to_date 2
          [⟨1, some 0, some 3, 0⟩, ⟨1, some 4, some 8, 1⟩]).map Prod.fst)
    ∧ (((windowGids GRow.from_date GRow.to_date 7
          [⟨1, some 0, some 3, 0⟩, ⟨1, some 4, some 8, 1⟩]).map
          Prod.snd).toFinset.card
        ≤ ((windowGids GRow.from_date GRow.to_date 2
          [⟨1, some 0, some 3, 0⟩, ⟨1, some 4, some 8, 1⟩]).map
          Prod.snd).toFinset.card)
    ∧ (((windowGids GRow.from_date GRow.to_date 7
          [⟨1, some 0, some 3, 0⟩, ⟨1, some 4, some 8, 1⟩]).map Prod.snd)[0]?
        = ((windowGids GRow.from_date GRow.to_date 7
          [⟨1, some 0, some 3, 0⟩, ⟨1, some 4, some 8, 1⟩]).map Prod.snd)[1]?) :=
  ⟨by decide, by decide, by decide,
   (C7_threshold_monotonicity GRow.from_date GRow.to_date 2 7 (by decide)
     [⟨1, some 0, some 3, 0⟩, ⟨1, some 4, some 8, 1⟩]).1,
   (C7_threshold_monotonicity GRow.from_date GRow.to_date 2 7 (by decide)
     [⟨1, some 0, some 3, 0⟩, ⟨1, some 4, some 8, 1⟩]).2.1,
   (C7_threshold_monotonicity GRow.from_date GRow.to_date 2 7 (by decide)
     [⟨1, some 0, some 3, 0⟩, ⟨1, some 4, some 8, 1⟩]).2.2 0 1 (by decide)
     (by decide)⟩

theorem firstSome_isSome {β : Type} (l : List (Option β))
    (h : ∃ v ∈ l, v.isSome) : (firstSome l).isSome := by
  induction l with
  | nil => simp at h
  | cons x xs ih =>
    cases x with
    | some v => simp [firstSome]
    | none =>
      apply ih
      rcases h with ⟨v, hv, hsome⟩
      rcases List.mem_cons.mp hv with hv1 | hv2
      · subst hv1; simp at hsome
      · exact ⟨v, hv2, hsome⟩

/-! ## Claims C1, C2, C5 -/

/-- Claim C1: in a (window, group_id) cluster of the combined treatment
reduce with at least one non-null id, the canonical id equals the first
non-null id of the cluster under the sort on priority, recency and
from_date, all descending (nulls first, the polars order the code
sorts with), and it is non-null — also when the top-ranked row itself
carries no id. -/
theorem C1_id_preservation (c : List TRow) (h : ∃ r ∈ c, r.id.isSome) :
    (reduceCluster c).id = firstSome ((sSort ltCluster c).map TRow.id)
    ∧ (reduceCluster c).id.isSome := by
  refine ⟨rfl, ?_⟩
  apply firstSome_isSome
  rcases h with ⟨r, hr, hsome⟩
  exact ⟨r.id,
    List.mem_map_of_mem TRow.id (((sSort_perm ltCluster c).mem_iff).mpr hr),
    hsome⟩

/-- Witness for claim C1: a cluster of a priority-1 row carrying id X
and a priority-3 row carrying no id; the canonical id is X although the
top-ranked row has none. -/
theorem C1_id_preservation_witness :
    (∃ r ∈ [(⟨1, some "X", some 0, some 3, some 1, none, some 1, some 5,
              some 5, some 5⟩ : TRow),
            (⟨1, none, some 0, some 3, some 1, none, some 3, some 6,
              some 6, some 6⟩ : TRow)], r.id.isSome)
    ∧ ((reduceCluster
          [⟨1, some "X", some 0, some 3, some 1, none, some 1, some 5,
            some 5, some 5⟩,
           ⟨1, none, some 0, some 3, some 1, none, some 3, some 6,
            some 6, some 6⟩]).id
        = firstSome ((sSort ltCluster
          [⟨1, some "X", some 0, some 3, some 1, none, some 1, some 5,
            some 5, some 5⟩,
           ⟨1, none, some 0, some 3, some 1, none, some 3, some 6,
            some 6, some 6⟩]).map TRow.id)
       ∧ (reduceCluster
          [⟨1, some "X", some 0, some 3, some 1, none, some 1, some 5,
            some 5, some 5⟩,
           ⟨1, none, some 0, some 3, some 1, none, some 3, some 6,
            some 6, some 6⟩]).id.isSome)
    ∧ (reduceCluster
          [⟨1, some "X", some 0, some 3, some 1, none, some 1, some 5,
            some 5, some 5⟩,
           ⟨1, none, some 0, some 3, some 1, none, some 3, some 6,
            some 6, some 6⟩]).id = some "X" :=
  ⟨by decide,
   C1_id_preservation
     [⟨1, some "X", some 0, some 3, some 1, none, some 1, some 5,
       some 5, some 5⟩,
      ⟨1, none, some 0, some 3, some 1, none, some 3, some 6,
       some 6, some 6⟩] (by decide),
   by decide⟩

/-- Claim C2, evaluation at the failing input: a cluster of two rows
whose to_date values are day 10 and null.  The code emits a null
to_date, because max_with_nulls sorts nulls first under its descending
sort, although the claim — and the comment in the code — require the
maximum non-null value, day 10.  The from_date minimum is as claimed. -/
theorem C2_to_date_eval :
    (reduceUkrdcRr
      [⟨1, some 1, none, none, some "UKRDC", some 0, some 10, some 5, some 5⟩,
       ⟨1, some 1, none, none, some "UKRDC", some 1, none, some 6, some 6⟩]).to_date
      = none
    ∧ ((⟨1, some 1, none, none, some "UKRDC", some 0, some 10, some 5,
         some 5⟩ : RRow)
        ∈ [⟨1, some 1, none, none, some "UKRDC", some 0, some 10, some 5, some 5⟩,
           (⟨1, some 1, none, none, some "UKRDC", some 1, none, some 6,
             some 6⟩ : RRow)])
    ∧ (⟨1, some 1, none, none, some "UKRDC", some 0, some 10, some 5,
         some 5⟩ : RRow).to_date = some 10
    ∧ (reduceUkrdcRr
      [⟨1, some 1, none, none, some "UKRDC", some 0, some 10, some 5, some 5⟩,
       ⟨1, some 1, none, none, some "UKRDC", some 1, none, some 6, some 6⟩]).from_date
      = some 0 := by decide

/-- Counterexample to claim C5 as stated: a row with the unknown source
label FOO flows through the merge and the grouper without any failure,
carrying a null priority, and the transplant sanity check does not fire
on the decoded null label either. -/
theorem C5_counterexample :
    ((combineTreatmentDataframes
        [[⟨1, none, some 0, some 3, some 1, none, some "FOO", some 5,
           some 5⟩]]).map (fun x => (x.1.source_type, x.2)) = [(none, 0)])
    ∧ transplantSanityRaises [decodeSourceType (encodeSourceType (some "FOO"))]
        = false := by decide

/-- Claim C5 amended: the merge never raises; a row whose source_type is
not in the priority order is silently assigned a null priority. -/
theorem C5_amended (r : MRow)
    (h : r.source_type ∉ [some "NHSBT LIST", some "BATCH", some "UKRDC",
      some "RADAR", some "RR"]) :
    (combineRow r).source_type = none := by
  cases hs : r.source_type with
  | none => simp [combineRow, encodeSourceType, hs]
  | some v =>
    have h1 : v ≠ "NHSBT LIST" := fun hc => h (by simp [hs, hc])
    have h2 : v ≠ "BATCH" := fun hc => h (by simp [hs, hc])
    have h3 : v ≠ "UKRDC" := fun hc => h (by simp [hs, hc])
    have h4 : v ≠ "RADAR" := fun hc => h (by simp [hs, hc])
    have h5 : v ≠ "RR" := fun hc => h (by simp [hs, hc])
    simp [combineRow, encodeSourceType, hs, h1, h2, h3, h4, h5]

/-- Witness for the amended claim C5 at the FOO row. -/
theorem C5_amended_witness :
    ((⟨1, none, some 0, some 3, some 1, none, some "FOO", some 5,
        some 5⟩ : MRow).source_type
      ∉ [some "NHSBT LIST", some "BATCH", some "UKRDC", some "RADAR",
         some "RR"])
    ∧ (combineRow
        ⟨1, none, some 0, some 3, some 1, none, some "FOO", some 5,
         some 5⟩).source_type = none :=
  ⟨by decide,
   C5_amended
     ⟨1, none, some 0, some 3, some 1, none, some "FOO", some 5, some 5⟩
     (by decide)⟩

/-- Counterexample to claim C8 as stated: at day_threshold 5 the three
episodes A(0,3), B(9,12), C(18,21) form three singleton groups in one
window, not one group of size 3 — the nearest endpoint gaps are 6 days,
above the threshold of 5. -/
theorem C8_counterexample :
    ((windowGids GRow.from_date GRow.to_date 5
      [⟨1, some 0, some 3, 0⟩, ⟨1, some 9, some 12, 1⟩,
       ⟨1, some 18, some 21, 2⟩]).map Prod.snd = [0, 1, 2])
    ∧ (((windowGids GRow.from_date GRow.to_date 5
      [⟨1, some 0, some 3, 0⟩, ⟨1, some 9, some 12, 1⟩,
       ⟨1, some 18, some 21, 2⟩]).map Prod.snd).toFinset.card = 3) := by
  decide

/-- Claim C8 amended: the pairwise endpoint gaps of the three episodes
are 6 days, so the chaining behaviour the claim describes appears at
day_threshold 6: A/B and B/C are close pairwise, A/C is not, and the
grouper still chains all three into exactly one group of size 3 without
raising; at the stated threshold 5 the same input gives three singleton
groups (see the counterexample). -/
theorem C8_chaining :
    ((windowGids GRow.from_date GRow.to_date 6
      [⟨1, some 0, some 3, 0⟩, ⟨1, some 9, some 12, 1⟩,
       ⟨1, some 18, some 21, 2⟩]).map Prod.fst
      = [⟨1, some 0, some 3, 0⟩, ⟨1, some 9, some 12, 1⟩,
         ⟨1, some 18, some 21, 2⟩])
    ∧ ((windowGids GRow.from_date GRow.to_date 6
      [⟨1, some 0, some 3, 0⟩, ⟨1, some 9, some 12, 1⟩,
       ⟨1, some 18, some 21, 2⟩]).map Prod.snd = [0, 0, 0])
    ∧ closePair 6 ⟨1, some 0, some 3, 0⟩ ⟨1, some 9, some 12, 1⟩
    ∧ closePair 6 ⟨1, some 9, some 12, 1⟩ ⟨1, some 18, some 21, 2⟩
    ∧ maskExpr 6 (some 18) (some 21) (some 0) (some 3) = some false := by
  decide

/-- Counterexample to claim C6 as stated: the combined treatment pass
groups by (patient_id, modality) with the same 5-day threshold as pass
1, not by patient alone with 15 days.  Three same-patient rows — two of
modality 1 whose endpoint gap is 8 days and one of modality 2 spanning
both — stay in three separate clusters and reduce to three canonical
rows, while the grouping the claim describes (patient window, threshold
15) would chain all three into one group. -/
theorem C6_counterexample :
    ((combineTreatmentDataframes
      [[⟨1, none, some 0, some 1, some 1, none, some "UKRDC", some 5, some 5⟩,
        ⟨1, none, some 9, some 10, some 1, none, some "UKRDC", some 5, some 5⟩,
        ⟨1, none, some 0, some 10, some 2, none, some "UKRDC", some 5, some 5⟩]]).map
        (fun x => (x.1.modality, x.2))
      = [(some 1, 0), (some 1, 1), (some 2, 0)])
    ∧ (groupAndReduceCombined (combineTreatmentDataframes
      [[⟨1, none, some 0, some 1, some 1, none, some "UKRDC", some 5, some 5⟩,
        ⟨1, none, some 9, some 10, some 1, none, some "UKRDC", some 5, some 5⟩,
        ⟨1, none, some 0, some 10, some 2, none, some "UKRDC", some 5, some 5⟩]])).length
      = 3
    ∧ ((groupRange TRow.from_date TRow.to_date (fun r => r.patient_id) 15
      ([⟨1, none, some 0, some 1, some 1, none, some "UKRDC", some 5, some 5⟩,
        ⟨1, none, some 9, some 10, some 1, none, some "UKRDC", some 5, some 5⟩,
        (⟨1, none, some 0, some 10, some 2, none, some "UKRDC", some 5,
          some 5⟩ : MRow)].map combineRow)).map Prod.snd = [0, 0, 0]) := by
  decide

/-- Claim C6 amended: the second treatment grouping pass windows by
(patient_id, modality), the same window as pass 1, with the same 5-day
threshold: same-patient rows of different modalities are never merged
even when their dates coincide; same-modality rows 4 days apart merge
while rows 8 days apart stay separate although they are within 15 days;
and the canonical modality is the cluster key. -/
theorem C6_second_pass :
    ((combineTreatmentDataframes
      [[⟨1, none, some 0, some 10, some 1, none, some "UKRDC", some 5, some 5⟩,
        ⟨1, none, some 0, some 10, some 2, none, some "UKRDC", some 5,
          some 5⟩]]).map (fun x => (x.1.modality, x.2))
      = [(some 1, 0), (some 2, 0)])
    ∧ ((groupAndReduceCombined (combineTreatmentDataframes
      [[⟨1, none, some 0, some 10, some 1, none, some "UKRDC", some 5, some 5⟩,
        ⟨1, none, some 0, some 10, some 2, none, some "UKRDC", some 5,
          some 5⟩]])).map CRow.modality = [some 1, some 2])
    ∧ ((combineTreatmentDataframes
      [[⟨1, none, some 0, some 1, some 1, none, some "UKRDC", some 5, some 5⟩,
        ⟨1, none, some 5, some 6, some 1, none, some "UKRDC", some 5,
          some 5⟩]]).map Prod.snd = [0, 0])
    ∧ ((combineTreatmentDataframes
      [[⟨1, none, some 0, some 1, some 1, none, some "UKRDC", some 5, some 5⟩,
        ⟨1, none, some 9, some 10, some 1, none, some "UKRDC", some 5,
          some 5⟩]]).map Prod.snd = [0, 1]) := by
  decide

/-! ## List helpers for the splitter proofs -/

theorem filter_map_comm {α β : Type} (g : α → β) (q : β → Bool) (l : List α) :
    (l.map g).filter q = (l.filter (fun a => q (g a))).map g := by
  induction l with
  | nil => rfl
  | cons a l ih => by_cases h : q (g a) <;> simp [h, ih]

theorem filter_flatMap {α β : Type} (f : α → List β) (p : β → Bool)
    (l : List α) :
    (l.flatMap f).filter p = l.flatMap (fun a => (f a).filter p) := by
  induction l with
  | nil => rfl
  | cons a l ih => simp [List.flatMap_cons, List.filter_append, ih]

theorem flatMap_eq_filter_flatMap {α β : Type} (q : α → Bool)
    (g : α → List β) (l : List α) (hg : ∀ a, q a = false → g a = []) :
    l.flatMap g = (l.filter q).flatMap g := by
  induction l with
  | nil => rfl
  | cons a l ih =>
    by_cases h : q a
    · simp [List.flatMap_cons, h, ih]
    · simp only [List.flatMap_cons, hg a (by simp [h]), List.nil_append, ih]
      simp [h]

theorem mem_joinOld {full : List CRow} {r : CRow} {y : CRow × Option CRow}
    (h : y ∈ joinOld full r) :
    y.1 = r ∧ (y.2 = none ∨ ∃ f, y.2 = some f ∧ f ∈ full ∧ f.id = r.id) := by
  unfold joinOld at h
  cases hfil : full.filter (fun f => decide (f.id = r.id)) with
  | nil =>
    rw [hfil] at h
    simp at h
    subst h
    exact ⟨rfl, .inl rfl⟩
  | cons m ms =>
    rw [hfil] at h
    rw [List.mem_map] at h
    obtain ⟨f, hf, rfl⟩ := h
    have hf2 : f ∈ full.filter (fun f => decide (f.id = r.id)) := by
      rw [hfil]; exact hf
    rw [List.mem_filter] at hf2
    exact ⟨rfl, .inr ⟨f, rfl, hf2.1, by simpa using hf2.2⟩⟩

theorem kne_none {β : Type} [DecidableEq β] (a : Option β) :
    kne a none = none := by
  cases a <;> rfl

theorem maskAnyDiff_none (r : CRow) : maskAnyDiff r none = none := by
  simp [maskAnyDiff, kne_none, kor]

theorem isT_foldl_kor (c : Option Bool) (cs : List (Option Bool)) :
    isT (cs.foldl kor c) ↔ isT c ∨ ∃ e ∈ cs, isT e := by
  induction cs generalizing c with
  | nil => simp
  | cons e cs ih =>
    rw [List.foldl_cons, ih]
    constructor
    · rintro (h | h)
      · rcases isT_kor.mp h with h | h
        · exact .inl h
        · exact .inr ⟨e, by simp, h⟩
      · rcases h with ⟨e2, he2, hT⟩
        exact .inr ⟨e2, by simp [he2], hT⟩
    · rintro (h | ⟨e2, he2, hT⟩)
      · exact .inl (isT_kor.mpr (.inl h))
      · rcases List.mem_cons.mp he2 with rfl | hmem
        · exact .inl (isT_kor.mpr (.inr hT))
        · exact .inr ⟨e2, hmem, hT⟩

theorem isT_kne {β : Type} [DecidableEq β] (a b : Option β) :
    isT (kne a b) ↔ bothSomeNe a b := by
  cases a <;> cases b <;> simp [kne, bothSomeNe, isT]

/-! ## Claims C3 and C4 -/

/-- Counterexample to claim C3 as stated: a canonical row whose id X is
absent from the prior full table does not make the splitter raise —
there is no raise in split_combined_dataframe — it is silently dropped
from both outputs: the left join leaves every old column null, so every
inequality of the no-op mask is null and the filter removes the row. -/
theorem C3_counterexample :
    splitCombinedDataframe []
      [⟨1, some "X", some 0, some 3, some 1, some 7, some "RADAR", some 1,
        some 9⟩] = ([], []) := by decide

/-- Claim C3 amended: the splitter never raises; a canonical row whose
non-null id has no row in the prior full table appears in neither the
update output nor the new output. -/
theorem C3_missing_id_dropped (full : List (TRow × Nat)) (reduced : List CRow)
    (x : String) (hfull : ∀ f ∈ full, (Prod.fst f).id ≠ some x) :
    (∀ u ∈ (splitCombinedDataframe full reduced).1, u.id ≠ some x)
    ∧ (∀ u ∈ (splitCombinedDataframe full reduced).2, u.id ≠ some x) := by
  constructor
  · intro u hu
    simp only [splitCombinedDataframe, List.mem_map] at hu
    obtain ⟨⟨rr, po⟩, hk, rfl⟩ := hu
    rw [List.mem_filter] at hk
    obtain ⟨hcand, hmask⟩ := hk
    rw [List.mem_flatMap] at hcand
    obtain ⟨r0, hr0, hjoin⟩ := hcand
    obtain ⟨hfst, hold⟩ := mem_joinOld hjoin
    intro hid
    have hr0id : r0.id = some x := by
      rw [← hfst]
      exact hid
    rcases hold with hnone | ⟨f, hpo, hfmem, hfid⟩
    · rw [hfst, hnone] at hmask
      rw [maskAnyDiff_none] at hmask
      simp [isT] at hmask
    · rw [List.mem_map] at hfmem
      obtain ⟨w, hw, rfl⟩ := hfmem
      rw [List.mem_map] at hw
      obtain ⟨t, ht, rfl⟩ := hw
      have : t.1.id = some x := by
        have : (projT t.1).id = r0.id := hfid
        rw [hr0id] at this
        exact this
      exact hfull t ht this
  · intro u hu
    simp only [splitCombinedDataframe] at hu
    rw [List.mem_filter] at hu
    intro hc
    rw [hc] at hu
    simp at hu

/-- Witness for the amended claim C3 at the counterexample input. -/
theorem C3_missing_id_dropped_witness :
    (∀ f ∈ ([] : List (TRow × Nat)), (Prod.fst f).id ≠ some "X")
    ∧ ((∀ u ∈ (splitCombinedDataframe []
        [⟨1, some "X", some 0, some 3, some 1, some 7, some "RADAR", some 1,
          some 9⟩]).1, u.id ≠ some "X")
      ∧ (∀ u ∈ (splitCombinedDataframe []
        [⟨1, some "X", some 0, some 3, some 1, some 7, some "RADAR", some 1,
          some 9⟩]).2, u.id ≠ some "X")) :=
  ⟨by decide,
   C3_missing_id_dropped []
     [⟨1, some "X", some 0, some 3, some 1, some 7, some "RADAR", some 1,
       some 9⟩] "X" (by decide)⟩

/-- Counterexample to claim C4 as stated: a canonical row that differs
from its prior record only in created_date is kept in update_rows —
the no-op mask compares created_date before it is restored — although
after restoring created_date the emitted row equals the prior record in
every column (the emitted row is literally the prior record). -/
theorem C4_counterexample :
    ((splitCombinedDataframe
      [(⟨1, some "X", some 0, some 3, some 1, some 7, some 3, some 1, some 9,
         some 9⟩, 0)]
      [⟨1, some "X", some 0, some 3, some 1, some 7, some "RADAR", some 2,
        some 9⟩]).1
      = [⟨1, some "X", some 0, some 3, some 1, some 7, some "RADAR", some 1,
         some 9⟩])
    ∧ ((⟨1, some "X", some 0, some 3, some 1, some 7, some "RADAR", some 1,
        some 9⟩ : CRow)
      = projT ⟨1, some "X", some 0, some 3, some 1, some 7, some 3, some 1,
          some 9, some 9⟩) := by decide

/-- Claim C4 amended: for a canonical row r with non-null id x, unique
in the reduced table, whose id has exactly one prior row p, the update
output contains the row for x if and only if some compared column —
created_date is compared before restoration, and a comparison against a
null is never a difference — has two non-null, unequal values; any
update row for x is exactly r with created_date restored from p. -/
theorem C4_update_membership (full : List (TRow × Nat)) (reduced : List CRow)
    (r p : CRow) (x : String) (hx : r.id = some x)
    (hr : reduced.filter (fun c => decide (c.id = some x)) = [r])
    (hp : ((full.map Prod.fst).map projT).filter
        (fun f => decide (f.id = some x)) = [p]) :
    (restoreCreated (r, some p) ∈ (splitCombinedDataframe full reduced).1
       ↔ diffAnyCol r p)
    ∧ (∀ u ∈ (splitCombinedDataframe full reduced).1, u.id = some x →
        u = restoreCreated (r, some p))
    ∧ (restoreCreated (r, some p)).created_date = p.created_date := by
  have hiff : isT (maskAnyDiff r (some p)) ↔ diffAnyCol r p := by
    simp only [maskAnyDiff, diffAnyCol, isT_foldl_kor, Option.map_some,
      Option.some_bind, List.mem_cons, List.not_mem_nil, or_false,
      exists_eq_or_imp, exists_eq_left, isT_kne]
    constructor
    · rintro (h | h) <;> [skip; rcases h with h | h | h | h | h | h | h] <;>
        simp_all [bothSomeNe]
    · rintro (h | h | h | h | h | h | h | h) <;> simp_all [bothSomeNe]
  have hrmem : r ∈ reduced := by
    have hm : r ∈ reduced.filter (fun c => decide (c.id = some x)) := by
      rw [hr]; simp
    exact (List.mem_filter.mp hm).1
  have hjoin : joinOld ((full.map Prod.fst).map projT) r = [(r, some p)] := by
    unfold joinOld
    have hfil : ((full.map Prod.fst).map projT).filter
        (fun f => decide (f.id = r.id)) = [p] := by
      have hpred : (fun f : CRow => decide (f.id = r.id))
          = (fun f : CRow => decide (f.id = some x)) := by
        funext f; rw [hx]
      rw [hpred]
      exact hp
    rw [hfil]
    rfl
  have hA : r ∈ reduced.filter (fun r0 => r0.id.isSome) := by
    rw [List.mem_filter]
    exact ⟨hrmem, by simp [hx]⟩
  have huniq : ∀ y ∈ (reduced.filter (fun r0 => r0.id.isSome)).flatMap
      (fun r0 => joinOld ((full.map Prod.fst).map projT) r0),
      y.1.id = some x → isT (maskAnyDiff y.1 y.2) → y = (r, some p) := by
    intro y hy hid hmask
    rw [List.mem_flatMap] at hy
    obtain ⟨r0, hr0, hjm⟩ := hy
    obtain ⟨hfst, hold⟩ := mem_joinOld hjm
    have hr0x : r0.id = some x := by rw [← hfst]; exact hid
    have hr0r : r0 = r := by
      have hm : r0 ∈ reduced.filter (fun c => decide (c.id = some x)) := by
        rw [List.mem_filter]
        exact ⟨(List.mem_filter.mp hr0).1, by simp [hr0x]⟩
      rw [hr] at hm
      simpa using hm
    rcases hold with hnone | ⟨f, hpo, hfmem, hfid⟩
    · exfalso
      rw [hnone, maskAnyDiff_none] at hmask
      simp [isT] at hmask
    · have hfp : f = p := by
        have hm : f ∈ ((full.map Prod.fst).map projT).filter
            (fun g => decide (g.id = some x)) := by
          rw [List.mem_filter]
          refine ⟨hfmem, by simp [hfid, hr0x]⟩
        rw [hp] at hm
        simpa using hm
      calc y = (y.1, y.2) := rfl
        _ = (r, some p) := by rw [hfst, hr0r, hpo, hfp]
  refine ⟨?_, ?_, rfl⟩
  · constructor
    · intro hmem
      simp only [splitCombinedDataframe, List.mem_map] at hmem
      obtain ⟨y, hy, heq⟩ := hmem
      rw [List.mem_filter] at hy
      obtain ⟨hcand, hmaskb⟩ := hy
      have hmask : isT (maskAnyDiff y.1 y.2) := by simpa using hmaskb
      have hyid : y.1.id = some x := by
        have h2 := congrArg CRow.id heq
        simpa [restoreCreated, hx] using h2
      have hy2 := huniq y hcand hyid hmask
      rw [hy2] at hmask
      exact hiff.mp hmask
    · intro hdiff
      have hmask : isT (maskAnyDiff r (some p)) := hiff.mpr hdiff
      simp only [splitCombinedDataframe, List.mem_map]
      refine ⟨(r, some p), ?_, rfl⟩
      rw [List.mem_filter]
      constructor
      · rw [List.mem_flatMap]
        exact ⟨r, hA, by rw [hjoin]; simp⟩
      · simpa using hmask
  · intro u hu hid
    simp only [splitCombinedDataframe, List.mem_map] at hu
    obtain ⟨y, hy, heq⟩ := hu
    rw [List.mem_filter] at hy
    obtain ⟨hcand, hmaskb⟩ := hy
    have hmask : isT (maskAnyDiff y.1 y.2) := by simpa using hmaskb
    have hyid : y.1.id = some x := by
      have h2 := congrArg CRow.id heq
      simpa [restoreCreated, hid] using h2
    rw [← heq, huniq y hcand hyid hmask]

/-- Witness for the amended claim C4 at the counterexample input. -/
theorem C4_update_membership_witness :
    ((⟨1, some "X", some 0, some 3, some 1, some 7, some "RADAR", some 2,
        some 9⟩ : CRow).id = some "X")
    ∧ ([(⟨1, some "X", some 0, some 3, some 1, some 7, some "RADAR", some 2,
          some 9⟩ : CRow)].filter (fun c => decide (c.id = some "X"))
        = [⟨1, some "X", some 0, some 3, some 1, some 7, some "RADAR", some 2,
           some 9⟩])
    ∧ ((([((⟨1, some "X", some 0, some 3, some 1, some 7, some 3, some 1,
            some 9, some 9⟩ : TRow), (0 : Nat))].map Prod.fst).map projT).filter
          (fun f => decide (f.id = some "X"))
        = [⟨1, some "X", some 0, some 3, some 1, some 7, some "RADAR", some 1,
           some 9⟩])
    ∧ ((restoreCreated
          (⟨1, some "X", some 0, some 3, some 1, some 7, some "RADAR", some 2,
            some 9⟩,
           some ⟨1, some "X", some 0, some 3, some 1, some 7, some "RADAR",
            some 1, some 9⟩)
        ∈ (splitCombinedDataframe
          [(⟨1, some "X", some 0, some 3, some 1, some 7, some 3, some 1,
             some 9, some 9⟩, 0)]
          [⟨1, some "X", some 0, some 3, some 1, some 7, some "RADAR", some 2,
            some 9⟩]).1
        ↔ diffAnyCol
          ⟨1, some "X", some 0, some 3, some 1, some 7, some "RADAR", some 2,
            some 9⟩
          ⟨1, some "X", some 0, some 3, some 1, some 7, some "RADAR", some 1,
            some 9⟩)
      ∧ (∀ u ∈ (splitCombinedDataframe
          [(⟨1, some "X", some 0, some 3, some 1, some 7, some 3, some 1,
             some 9, some 9⟩, 0)]
          [⟨1, some "X", some 0, some 3, some 1, some 7, some "RADAR", some 2,
            some 9⟩]).1, u.id = some "X" →
          u = restoreCreated
            (⟨1, some "X", some 0, some 3, some 1, some 7, some "RADAR",
              some 2, some 9⟩,
             some ⟨1, some "X", some 0, some 3, some 1, some 7, some "RADAR",
              some 1, some 9⟩))
      ∧ (restoreCreated
          (⟨1, some "X", some 0, some 3, some 1, some 7, some "RADAR", some 2,
            some 9⟩,
           some ⟨1, some "X", some 0, some 3, some 1, some 7, some "RADAR",
            some 1, some 9⟩)).created_date
        = (⟨1, some "X", some 0, some 3, some 1, some 7, some "RADAR", some 1,
           some 9⟩ : CRow).created_date) :=
  ⟨by decide, by decide, by decide,
   C4_update_membership
     [(⟨1, some "X", some 0, some 3, some 1, some 7, some 3, some 1, some 9,
        some 9⟩, 0)]
     [⟨1, some "X", some 0, some 3, some 1, some 7, some "RADAR", some 2,
       some 9⟩]
     ⟨1, some "X", some 0, some 3, some 1, some 7, some "RADAR", some 2,
       some 9⟩
     ⟨1, some "X", some 0, some 3, some 1, some 7, some "RADAR", some 1,
       some 9⟩
     "X" (by decide) (by decide) (by decide)⟩

theorem marks_map_eq (ms : List (Option Bool)) :
    ms.map markOfMask = (ms.map flagOfMask).map (fun b => if b then 1 else 0) := by
  simp [List.map_map, Function.comp_def, markOfMask_eq]

theorem sSort_length {α : Type} (lt : α → α → Bool) (l : List α) :
    (sSort lt l).length = l.length :=
  (sSort_perm lt l).length_eq

theorem shiftPos_get {β : Type} (l : List (Option β)) (i : Nat)
    (h : i + 1 < l.length) : (shiftPos l)[i + 1]? = l[i]? := by
  unfold shiftPos
  rw [List.getElem?_take_of_lt h, List.getElem?_cons_succ]

theorem transplantMasks_length (rows : List XRow) :
    (transplantMasks rows).length = rows.length := by
  unfold transplantMasks shiftPos
  rw [List.length_zipWith]
  simp [sSort_length]

theorem transplantWindow_snd (rows : List XRow) :
    (transplantWindow rows).map Prod.snd
      = gidScan ((transplantMasks rows).map flagOfMask) := by
  unfold transplantWindow
  rw [marks_map_eq, rleId_cumsum_flags]
  apply List.map_snd_zip
  rw [gidScan_length]
  simp [transplantMasks_length, sSort_length]

theorem transplantWindow_fst (rows : List XRow) :
    (transplantWindow rows).map Prod.fst = sSort ltDate rows := by
  unfold transplantWindow
  apply List.map_fst_zip
  rw [rleId_length, cumsum_length]
  simp [transplantMasks_length, sSort_length]

theorem sInsert_map_comm {α : Type} (u : α → α) (lt : α → α → Bool)
    (h : ∀ x y, lt (u x) (u y) = lt x y) (x : α) (l : List α) :
    sInsert lt (u x) (l.map u) = (sInsert lt x l).map u := by
  induction l with
  | nil => rfl
  | cons y ys ih =>
    by_cases hxy : lt y x
    · simp [sInsert, h, hxy, ih]
    · simp [sInsert, h, hxy]

theorem sSort_map_comm {α : Type} (u : α → α) (lt : α → α → Bool)
    (h : ∀ x y, lt (u x) (u y) = lt x y) (l : List α) :
    sSort lt (l.map u) = (sSort lt l).map u := by
  induction l with
  | nil => rfl
  | cons x xs ih => simp [sSort, ih, sInsert_map_comm u lt h]

theorem transplantMasks_setDof (rows : List XRow) (f : XRow → Option Int) :
    transplantMasks (rows.map (setDof f)) = transplantMasks rows := by
  unfold transplantMasks
  have hlt : ∀ x y, ltDate (setDof f x) (setDof f y) = ltDate x y := by
    intro x y; rfl
  rw [sSort_map_comm (setDof f) ltDate hlt]
  have hdates : ((sSort ltDate rows).map (setDof f)).map XRow.date
      = (sSort ltDate rows).map XRow.date := by
    rw [List.map_map]
    rfl
  rw [hdates, List.zipWith_map_left]
  rfl

/-- Claim C10: within a patient partition, each row after the first
joins the group of its predecessor in date order exactly when their
start dates are at most five days apart, and rewriting date_of_failure
arbitrarily changes neither the group ids nor the row order.  The full
grouping applies transplantWindow to every patient partition. -/
theorem C10_transplant_grouping (rows : List XRow) :
    (∀ (i : Nat) (ra rb : XRow) (a b : Int),
      (sSort ltDate rows)[i]? = some ra →
      (sSort ltDate rows)[i + 1]? = some rb →
      ra.date = some a → rb.date = some b →
      (((transplantWindow rows).map Prod.snd)[i + 1]?
          = ((transplantWindow rows).map Prod.snd)[i]?
        ↔ |b - a| ≤ 5))
    ∧ (∀ f : XRow → Option Int,
        ((transplantWindow (rows.map (setDof f))).map Prod.snd
          = (transplantWindow rows).map Prod.snd)
        ∧ ((transplantWindow (rows.map (setDof f))).map Prod.fst
          = ((transplantWindow rows).map Prod.fst).map (setDof f))) := by
  constructor
  · intro i ra rb a b hia hib hda hdb
    have hlen : i + 1 < (sSort ltDate rows).length := by
      rcases List.getElem?_eq_some_iff.mp hib with ⟨hl, _⟩
      exact hl
    have hflags : ((transplantMasks rows).map flagOfMask).length
        = (sSort ltDate rows).length := by
      simp [transplantMasks_length, sSort_length]
    have hmaskb : (transplantMasks rows)[i + 1]?
        = some (kle (kabsSub rb.date (some a)) (some 5)) := by
      unfold transplantMasks
      rw [List.getElem?_zipWith]
      rw [hib, shiftPos_get _ i (by simpa [sSort_length] using hlen)]
      rw [List.getElem?_map, hia]
      simp [hda]
    rw [transplantWindow_snd]
    rw [gidScan_get? _ (i + 1) (by rw [hflags] at *; omega),
      gidScan_get? _ i (by rw [hflags] at *; omega)]
    have htail : ((transplantMasks rows).map flagOfMask).tail.take (i + 1)
        = ((transplantMasks rows).map flagOfMask).tail.take i
          ++ (((transplantMasks rows).map flagOfMask).tail[i]?).toList := by
      exact List.take_succ
    have hti : ((transplantMasks rows).map flagOfMask).tail[i]?
        = some (flagOfMask (some (decide (|rb.date.getD 0 - a| ≤ 5)))) := by
      rw [List.getElem?_tail, List.getElem?_map, hmaskb]
      simp [hdb, kabsSub, kle]
    rw [htail, hti, List.count_append]
    rw [hdb]
    simp only [Option.getD_some] at hti ⊢
    by_cases hle : |b - a| ≤ 5
    · simp [hle, flagOfMask, isT]
    · simp [hle, flagOfMask, isT]
  · intro f
    constructor
    · rw [transplantWindow_snd, transplantWindow_snd, transplantMasks_setDof]
    · rw [transplantWindow_fst, transplantWindow_fst]
      exact sSort_map_comm (setDof f) ltDate (fun x y => rfl) rows

/-- Witness for claim C10 at a concrete two-row partition with dates 0
and 4 (same group, four days apart). -/
theorem C10_transplant_grouping_witness :
    ((sSort ltDate [⟨1, some 0, some 20, 0⟩, ⟨1, some 4, none, 1⟩])[0]?
        = some ⟨1, some 0, some 20, 0⟩)
    ∧ ((sSort ltDate [⟨1, some 0, some 20, 0⟩, ⟨1, some 4, none, 1⟩])[1]?
        = some ⟨1, some 4, none, 1⟩)
    ∧ ((((transplantWindow [⟨1, some 0, some 20, 0⟩, ⟨1, some 4, none, 1⟩]).map
          Prod.snd)[1]?
        = ((transplantWindow
            [⟨1, some 0, some 20, 0⟩, ⟨1, some 4, none, 1⟩]).map Prod.snd)[0]?)
       ↔ |(4 : Int) - 0| ≤ 5) :=
  ⟨by decide, by decide,
   (C10_transplant_grouping
     [⟨1, some 0, some 20, 0⟩, ⟨1, some 4, none, 1⟩]).1 0
     ⟨1, some 0, some 20, 0⟩ ⟨1, some 4, none, 1⟩ 0 4
     (by decide) (by decide) (by decide) (by decide)⟩

theorem isT_kand {a b : Option Bool} : isT (kand a b) ↔ isT a ∧ isT b := by
  rcases a with _ | x <;> rcases b with _ | y
  · decide
  · cases y <;> decide
  · cases x <;> decide
  · cases x <;> cases y <;> decide

theorem isT_keqS (o : Option String) (s : String) :
    isT (keqS o s) ↔ o = some s := by
  cases o <;> simp [keqS, isT]

theorem isT_kIsIn (o : Option String) (l : List String) :
    isT (kIsIn o l) ↔ ∃ v, o = some v ∧ v ∈ l := by
  cases o <;> simp [kIsIn, isT]

/-- Claim C9: the resolver implements the ordered decision table of the
claim, first matching rule wins, with null for every unmatched
combination; a null input column never matches a rule. -/
theorem C9_modality_decision_table (ttype trel tsex : Option String) :
    getRRTransplantModality ttype trel tsex
      = specTransplantModality ttype trel tsex := by
  have e1 : isT (kand (kIsIn ttype ["Live"]) (keqS trel "0"))
      ↔ (ttype = some "Live" ∧ trel = some "0") := by
    rw [isT_kand, isT_keqS, isT_kIsIn]; simp
  have e2 : isT (kand (kIsIn ttype ["Live"])
        (kIsIn trel ["3", "4", "5", "6", "7", "8"]))
      ↔ (ttype = some "Live" ∧ (trel = some "3" ∨ trel = some "4"
          ∨ trel = some "5" ∨ trel = some "6" ∨ trel = some "7"
          ∨ trel = some "8")) := by
    rw [isT_kand, isT_kIsIn, isT_kIsIn]; rcases trel with _ | w <;> simp
  have e3 : isT (kand (kand (kIsIn ttype ["Live"]) (keqS trel "2"))
        (keqS tsex "1"))
      ↔ (ttype = some "Live" ∧ trel = some "2" ∧ tsex = some "1") := by
    rw [isT_kand, isT_kand, isT_keqS, isT_keqS, isT_kIsIn]; simp; tauto
  have e4 : isT (kand (kand (kIsIn ttype ["Live"]) (keqS trel "2"))
        (keqS tsex "2"))
      ↔ (ttype = some "Live" ∧ trel = some "2" ∧ tsex = some "2") := by
    rw [isT_kand, isT_kand, isT_keqS, isT_keqS, isT_kIsIn]; simp; tauto
  have e5 : isT (kand (kIsIn ttype ["Live"]) (keqS trel "9"))
      ↔ (ttype = some "Live" ∧ trel = some "9") := by
    rw [isT_kand, isT_keqS, isT_kIsIn]; simp
  have e6 : isT (kand (kIsIn ttype ["Live"])
        (kIsIn trel ["11", "12", "15", "16", "19", "10"]))
      ↔ (ttype = some "Live" ∧ (trel = some "11" ∨ trel = some "12"
          ∨ trel = some "15" ∨ trel = some "16" ∨ trel = some "19"
          ∨ trel = some "10")) := by
    rw [isT_kand, isT_kIsIn, isT_kIsIn]; rcases trel with _ | w <;> simp
  have e7 : isT (kIsIn ttype ["DCD", "DBD"])
      ↔ (ttype = some "DCD" ∨ ttype = some "DBD") := by
    rw [isT_kIsIn]; rcases ttype with _ | w <;> simp
  have e8 : isT (kIsIn trel ["88", "99"])
      ↔ (trel = some "88" ∨ trel = some "99") := by
    rw [isT_kIsIn]; rcases trel with _ | w <;> simp
  show whenChain _ = _
  simp only [whenChain, specTransplantModality]
  by_cases h1 : ttype = some "Live" ∧ trel = some "0"
  · rw [if_pos (e1.mpr h1), if_pos h1]
  rw [if_neg (fun hc => h1 (e1.mp hc)), if_neg h1]
  by_cases h2 : ttype = some "Live" ∧ (trel = some "3" ∨ trel = some "4"
      ∨ trel = some "5" ∨ trel = some "6" ∨ trel = some "7" ∨ trel = some "8")
  · rw [if_pos (e2.mpr h2), if_pos h2]
  rw [if_neg (fun hc => h2 (e2.mp hc)), if_neg h2]
  by_cases h3 : ttype = some "Live" ∧ trel = some "2" ∧ tsex = some "1"
  · rw [if_pos (e3.mpr h3), if_pos h3]
  rw [if_neg (fun hc => h3 (e3.mp hc)), if_neg h3]
  by_cases h4 : ttype = some "Live" ∧ trel = some "2" ∧ tsex = some "2"
  · rw [if_pos (e4.mpr h4), if_pos h4]
  rw [if_neg (fun hc => h4 (e4.mp hc)), if_neg h4]
  by_cases h5 : ttype = some "Live" ∧ trel = some "9"
  · rw [if_pos (e5.mpr h5), if_pos h5]
  rw [if_neg (fun hc => h5 (e5.mp hc)), if_neg h5]
  by_cases h6 : ttype = some "Live" ∧ (trel = some "11" ∨ trel = some "12"
      ∨ trel = some "15" ∨ trel = some "16" ∨ trel = some "19"
      ∨ trel = some "10")
  · rw [if_pos (e6.mpr h6), if_pos h6]
  rw [if_neg (fun hc => h6 (e6.mp hc)), if_neg h6]
  by_cases h7 : ttype = some "DCD" ∨ ttype = some "DBD"
  · rw [if_pos (e7.mpr h7), if_pos h7]
  rw [if_neg (fun hc => h7 (e7.mp hc)), if_neg h7]
  by_cases h8 : trel = some "88" ∨ trel = some "99"
  · rw [if_pos (e8.mpr h8), if_pos h8]
  rw [if_neg (fun hc => h8 (e8.mp hc)), if_neg h8]

end RadarTimeline
